import Mathlib

/-!
Verification of the two scripts of this repository:
`convert_svg_to_jpg.py` (batch SVG-to-JPEG converter) and
`serve_animation.py` (static file server with a root rewrite and a CORS
header). Pure fragments are embedded as Lean functions; effects (the
directory listing, the external rasterizer, the browser launcher) are
passed in as explicit inputs, so every claim becomes a statement about
total functions.
-/

namespace SvgConvert

/-- Embedding of the CPython scanner behind `svg_file.replace('.svg', '.jpg')`
(`main`, line 55): scan left to right, replacing every non-overlapping
occurrence of the substring `.svg` by `.jpg`. -/
def replaceSvg : List Char → List Char
  | [] => []
  | '.' :: 's' :: 'v' :: 'g' :: rest => '.' :: 'j' :: 'p' :: 'g' :: replaceSvg rest
  | c :: rest => c :: replaceSvg rest

/-- String form of `jpg_file = svg_file.replace('.svg', '.jpg')` (line 55). -/
def jpgName (svg_file : String) : String := ⟨replaceSvg svg_file.data⟩

/-- Prepend a character to the first piece of a split (helper for
`splitSvg`). -/
def consHead (c : Char) : List (List Char) → List (List Char)
  | [] => [[c]]
  | p :: ps => (c :: p) :: ps

/-- Spec-level view of Python `str.replace` for a non-empty pattern, from
the library documentation: split the string on every occurrence of `.svg`
and rejoin the pieces with the replacement. Used to state the replace-all
semantics against the scanner above. -/
def splitSvg : List Char → List (List Char)
  | [] => [[]]
  | '.' :: 's' :: 'v' :: 'g' :: rest => [] :: splitSvg rest
  | c :: rest => consHead c (splitSvg rest)

lemma consHead_ne_nil (c : Char) (l : List (List Char)) : consHead c l ≠ [] := by
  cases l <;> simp [consHead]

lemma splitSvg_ne_nil (l : List Char) : splitSvg l ≠ [] := by
  induction l using splitSvg.induct with
  | case1 => simp [splitSvg]
  | case2 rest ih => simp [splitSvg]
  | case3 c rest hne ih => simp [splitSvg, hne, consHead_ne_nil]

lemma intercalate_cons_cons (sep a b : List Char) (t : List (List Char)) :
    List.intercalate sep (a :: b :: t) = a ++ sep ++ List.intercalate sep (b :: t) := by
  simp [List.intercalate, List.intersperse]

lemma intercalate_singleton (sep a : List Char) :
    List.intercalate sep [a] = a := by
  simp [List.intercalate, List.intersperse]

/-- The two functions of `convert_svg_to_jpg` whose outcome depends on the
external libraries (`cairosvg.svg2png`, `Image.open`, `image.save`) are
summarized by an oracle: `none` means the `try` block of
`convert_svg_to_jpg` ran to completion, `some e` means it raised an
exception whose text is `e`. -/
abbrev ConvertOracle := String → Option String

/-- Embedding of `convert_svg_to_jpg` (lines 18-41) at the granularity of its
observable outcome: the line it prints and the Boolean it returns.  On
success it prints the check line and returns `true`; on an exception it
prints the error line and returns `false`. -/
def convert_svg_to_jpg (svg_file jpg_file : String) (outcome : Option String) :
    String × Bool :=
  match outcome with
  | none => ("✓ Converted: " ++ svg_file ++ " -> " ++ jpg_file, true)
  | some e => ("✗ Error converting " ++ svg_file ++ ": " ++ e, false)

/-- The `for svg_file in svg_files:` loop of `main` (lines 53-57): per-file
output lines and the final `success_count`. -/
def processFiles (convert : ConvertOracle) : List String → List String × Nat
  | [] => ([], 0)
  | f :: rest =>
    let r := convert_svg_to_jpg f (jpgName f) (convert f)
    let tailRes := processFiles convert rest
    (r.1 :: tailRes.1, (if r.2 then 1 else 0) + tailRes.2)

/-- Embedding of `f.endswith('.svg')` (line 45): `.svg` is a suffix of the filename. -/
def endsSvg (f : String) : Bool := List.isSuffixOf ".svg".data f.data

/-- Result of a converter run: the lines printed to stdout, in order, and
the process exit status. -/
structure RunResult where
  output : List String
  exitCode : Nat
deriving DecidableEq

/-- Embedding of `main` (lines 43-60).  `listing` is the result of
`os.listdir('.')`; `convert` resolves each per-file `try` block.  The
Python function returns `None` in every branch and the script never calls
`sys.exit`, so the process exit status is 0. -/
def convMain (listing : List String) (convert : ConvertOracle) : RunResult :=
  let svg_files := listing.filter endsSvg
  if svg_files.isEmpty then
    { output := ["No SVG files found in current directory"], exitCode := 0 }
  else
    let pr := processFiles convert svg_files
    { output :=
        ("Found " ++ toString svg_files.length ++ " SVG files to convert\n")
          :: pr.1
          ++ ["\n✓ Successfully converted " ++ toString pr.2 ++ "/"
                ++ toString svg_files.length ++ " files"],
      exitCode := 0 }

lemma processFiles_spec (convert : ConvertOracle) (files : List String) :
    (processFiles convert files).1 =
        files.map (fun f => (convert_svg_to_jpg f (jpgName f) (convert f)).1) ∧
      (processFiles convert files).2 =
        (files.filter (fun f => (convert f).isNone)).length := by
  induction files with
  | nil => simp [processFiles]
  | cons f rest ih =>
    refine ⟨by simp [processFiles, ih.1], ?_⟩
    cases h : convert f <;>
      simp [processFiles, convert_svg_to_jpg, h, ih.2, Nat.add_comm]

/-- An in-memory raster image as PIL sees it: a mode string and a pixel map
giving the four 8-bit channels (red, green, blue, alpha) at each
coordinate.  Modes without an alpha channel simply never read the fourth
component. -/
structure Img where
  mode : String
  w : Nat
  h : Nat
  px : Nat → Nat → Nat × Nat × Nat × Nat

/-- PIL's `MULDIV255` rounding approximation of `a * b / 255`. -/
def muldiv255 (a b : Nat) : Nat :=
  let t := a * b + 128
  (t / 256 + t) / 256

/-- PIL's per-channel `BLEND` used by `paste` with an 8-bit mask:
interpolate from the destination channel `dst` to the source channel `src`
by the mask value. -/
def blendChannel (mask dst src : Nat) : Nat :=
  muldiv255 dst (255 - mask) + muldiv255 src mask

/-- Embedding of `Image.new('RGB', image.size, (255, 255, 255))` (line 29): an opaque
white canvas of the same size. -/
def newWhiteRGB (w h : Nat) : Img :=
  { mode := "RGB", w := w, h := h, px := fun _ _ => (255, 255, 255, 255) }

/-- Embedding of `rgb_image.paste(image, mask=image.split()[3])` (line 30): paste `src`
onto `dst` using `src`'s alpha channel as the blend mask, pixel by pixel. -/
def pasteAlphaMask (dst src : Img) : Img :=
  { dst with
    px := fun x y =>
      let s := src.px x y
      let d := dst.px x y
      (blendChannel s.2.2.2 d.1 s.1,
       blendChannel s.2.2.2 d.2.1 s.2.1,
       blendChannel s.2.2.2 d.2.2.1 s.2.2.1,
       255) }

/-- Embedding of `image.convert('RGB')` (line 33): drop the alpha channel and mark the
mode `RGB`; the visible channels are carried over opaque. -/
def convertModeRGB (image : Img) : Img :=
  { image with
    mode := "RGB",
    px := fun x y =>
      let p := image.px x y
      (p.1, p.2.1, p.2.2.1, 255) }

/-- The color-normalization block of `convert_svg_to_jpg` (lines 27-33):
`if image.mode == 'RGBA': ... elif image.mode != 'RGB': ... else` keep. -/
def colorNormalize (image : Img) : Img :=
  if image.mode = "RGBA" then
    pasteAlphaMask (newWhiteRGB image.w image.h) image
  else if image.mode ≠ "RGB" then
    convertModeRGB image
  else
    image

lemma muldiv255_zero (a : Nat) : muldiv255 a 0 = 0 := by
  simp [muldiv255]

lemma muldiv255_255_255 : muldiv255 255 255 = 255 := by
  decide

lemma blendChannel_zero_mask (src : Nat) : blendChannel 0 255 src = 255 := by
  simp [blendChannel, muldiv255_zero, muldiv255_255_255]

lemma replaceSvg_eq_intercalate (l : List Char) :
    replaceSvg l = List.intercalate ['.', 'j', 'p', 'g'] (splitSvg l) := by
  induction l using replaceSvg.induct with
  | case1 => simp [replaceSvg, splitSvg, intercalate_singleton]
  | case2 rest ih =>
    cases hsp : splitSvg rest with
    | nil => exact absurd hsp (splitSvg_ne_nil rest)
    | cons p ps =>
      simp only [replaceSvg, splitSvg, hsp, ih]
      rw [intercalate_cons_cons]
      simp
  | case3 c rest hne ih =>
    cases hsp : splitSvg rest with
    | nil => exact absurd hsp (splitSvg_ne_nil rest)
    | cons p ps =>
      simp only [replaceSvg, splitSvg, hne, hsp, ih, consHead]
      cases ps with
      | nil => simp [intercalate_singleton]
      | cons q qs => rw [intercalate_cons_cons, intercalate_cons_cons]; simp

/-- A conversion oracle matching the spec's example scenario: `broken.svg`
raises, everything else converts. -/
def demoOracle : ConvertOracle :=
  fun f => if f = "broken.svg" then some "malformed" else none

/-- A 1x1 RGBA image whose only pixel is fully transparent. -/
def demoRGBA : Img :=
  { mode := "RGBA", w := 1, h := 1, px := fun _ _ => (10, 20, 30, 0) }

/-- A 1x1 grayscale image (mode `L`). -/
def demoGray : Img :=
  { mode := "L", w := 1, h := 1, px := fun _ _ => (7, 7, 7, 99) }

/-- A 1x1 image already in mode `RGB`. -/
def demoRGB : Img :=
  { mode := "RGB", w := 1, h := 1, px := fun _ _ => (1, 2, 3, 255) }

end SvgConvert

namespace ServeAnimation

/-- The root rewrite of `Handler.do_GET` (lines 18-22 of
`serve_animation.py`): `if self.path in ('', '/'): self.path =
'/mpmc_animation.html'`. -/
def rewritePath (path : String) : String :=
  if path = "" ∨ path = "/" then "/mpmc_animation.html" else path

/-- The base `SimpleHTTPRequestHandler` file serving, abstracted as a lookup
of the request path in the served directory tree: `none` stands for the
standard not-found/error response, `some body` for a served body. -/
def serveFile (files : String → Option String) (path : String) : Option String :=
  files path

/-- Embedding of `Handler.do_GET`: rewrite the path, then delegate to the base class. -/
def do_GET (files : String → Option String) (path : String) : Option String :=
  serveFile files (rewritePath path)

/-- Embedding of `Handler.end_headers` (lines 13-16): append the CORS header to whatever
headers the response has buffered so far, then flush.  The result is the
final header list of the response. -/
def end_headers (buffered : List (String × String)) : List (String × String) :=
  buffered ++ [("Access-Control-Allow-Origin", "*")]

/-- A response of the server: status code plus final headers.  Every write
path of the base handler — `send_head` on success, `send_error` on
failure, the directory listing — finishes its header block through
`end_headers`, which the subclass overrides. -/
def respond (status : Nat) (buffered : List (String × String)) :
    Nat × List (String × String) :=
  (status, end_headers buffered)

/-- Parsed command-line arguments of `serve_animation.py`. -/
structure Args where
  port : Int
  host : String
  openFlag : Bool
deriving DecidableEq

/-- The `argparse` configuration of `main` (lines 27-31): `--port`/`-p` is
an integer defaulting to 8000, `--host` a string defaulting to `0.0.0.0`,
`--open` a `store_true` flag (absent means `false`).  `portArg`/`hostArg`
are `some v` when the flag (under either spelling for the port) was given
with value `v`, `none` when omitted; `openGiven` records whether `--open`
appeared. -/
def parseArgs (portArg : Option Int) (hostArg : Option String)
    (openGiven : Bool) : Args :=
  { port := portArg.getD 8000,
    host := hostArg.getD "0.0.0.0",
    openFlag := openGiven }

/-- Embedding of `webbrowser.open(url)` wrapped in `try ... except Exception: pass`
(lines 39-43): whatever the launch attempt does — `Except.ok` for success,
`Except.error` for a raised exception — the guarded block completes
normally.  When the flag is off the block is not entered at all. -/
def tryOpenBrowser (openFlag : Bool) (browser : Except String Unit) :
    Except String Unit :=
  if openFlag then
    match browser with
    | Except.ok _ => Except.ok ()
    | Except.error _ => Except.ok ()
  else
    Except.ok ()

/-- Observable outcome of server startup (`main`, lines 33-48). -/
structure ServerRun where
  addr : String × Int
  printed : List String
  attemptedBrowser : Bool
  serving : Bool
deriving DecidableEq

/-- Embedding of the server `main` after argument parsing: build the
address, print the banner, run the guarded browser attempt, and enter
`serve_forever` unless an exception escaped the attempt (none can, by
`tryOpenBrowser`; the `error` branch models what an uncaught exception
would do: abort before the serve loop). -/
def serverMain (cwd : String) (args : Args) (browser : Except String Unit) :
    ServerRun :=
  let url := "http://127.0.0.1:" ++ toString args.port ++ "/"
  let banner := "Serving " ++ cwd ++ " at " ++ url ++ " (press Ctrl-C to stop)"
  match tryOpenBrowser args.openFlag browser with
  | Except.ok _ =>
    { addr := (args.host, args.port),
      printed := [banner],
      attemptedBrowser := args.openFlag,
      serving := true }
  | Except.error e =>
    { addr := (args.host, args.port),
      printed := [banner, e],
      attemptedBrowser := args.openFlag,
      serving := false }

/-- A served directory tree holding only the animation page. -/
def demoFiles : String → Option String := fun p =>
  if p = "/mpmc_animation.html" then some "<html>animation</html>" else none

end ServeAnimation

namespace SvgConvert

/-- C1 (amended): for every discovered source filename, the destination
path substitutes the target extension for EVERY occurrence of the
substring `.svg` anywhere in the filename (Python `str.replace` replaces
all non-overlapping occurrences, not only the first): the scanner equals
splitting on all occurrences of `.svg` and rejoining with `.jpg`. -/
theorem jpgName_replaces_every_svg (svg_file : String) :
    (jpgName svg_file).data =
      List.intercalate ['.', 'j', 'p', 'g'] (splitSvg svg_file.data) :=
  replaceSvg_eq_intercalate svg_file.data

/-- C1 counterexample: on `my.svg.backup.svg` both occurrences of `.svg`
are replaced, so the destination is `my.jpg.backup.jpg`, not the
`my.jpg.backup.svg` that a first-occurrence-only substitution would
give. -/
theorem jpgName_not_first_only :
    jpgName "my.svg.backup.svg" = "my.jpg.backup.jpg" ∧
    jpgName "my.svg.backup.svg" ≠ "my.jpg.backup.svg" := by
  constructor
  · decide
  · decide

/-- C1 witness for the amended theorem: the split-and-rejoin form evaluated
on the spec's own example. -/
theorem jpgName_replaces_every_svg_witness :
    (jpgName "my.svg.backup.svg").data =
      List.intercalate ['.', 'j', 'p', 'g'] (splitSvg "my.svg.backup.svg".data) :=
  jpgName_replaces_every_svg "my.svg.backup.svg"

/-- C4: the color normalization composites RGBA images over an opaque white
canvas with the alpha channel as blend mask (a fully transparent pixel
becomes opaque white), converts any other non-RGB mode directly to RGB,
and leaves RGB images untouched. -/
theorem colorNormalize_spec (image : Img) :
    (image.mode = "RGBA" →
        colorNormalize image = pasteAlphaMask (newWhiteRGB image.w image.h) image ∧
        ∀ x y, (image.px x y).2.2.2 = 0 →
          (colorNormalize image).px x y = (255, 255, 255, 255)) ∧
    (image.mode ≠ "RGBA" → image.mode ≠ "RGB" →
        colorNormalize image = convertModeRGB image) ∧
    (image.mode = "RGB" → colorNormalize image = image) := by
  refine ⟨fun h => ⟨by simp [colorNormalize, h], fun x y ha => ?_⟩,
    fun h1 h2 => by simp [colorNormalize, h1, h2],
    fun h => by simp [colorNormalize, h]⟩
  simp [colorNormalize, h, pasteAlphaMask, newWhiteRGB, ha, blendChannel_zero_mask]

/-- C4 witness: a fully transparent RGBA pixel lands on opaque white; a
grayscale image is converted to RGB; an RGB image is kept as-is. -/
theorem colorNormalize_spec_witness :
    (colorNormalize demoRGBA).px 0 0 = (255, 255, 255, 255) ∧
    colorNormalize demoGray = convertModeRGB demoGray ∧
    colorNormalize demoRGB = demoRGB :=
  ⟨((colorNormalize_spec demoRGBA).1 rfl).2 0 0 rfl,
   (colorNormalize_spec demoGray).2.1 (by decide) (by decide),
   (colorNormalize_spec demoRGB).2.2 rfl⟩

/-- C5: a failing conversion does not abort the batch: every discovered
file contributes exactly its own success or failure line, in order, and
the final tally line reports the number of successful conversions over the
number of discovered files. -/
theorem convMain_batch (listing : List String) (convert : ConvertOracle)
    (h : listing.filter endsSvg ≠ []) :
    (convMain listing convert).output =
      ("Found " ++ toString (listing.filter endsSvg).length
          ++ " SVG files to convert\n")
        :: (listing.filter endsSvg).map
            (fun f => (convert_svg_to_jpg f (jpgName f) (convert f)).1)
        ++ ["\n✓ Successfully converted "
              ++ toString ((listing.filter endsSvg).filter
                    (fun f => (convert f).isNone)).length
              ++ "/" ++ toString (listing.filter endsSvg).length ++ " files"] := by
  have hp := processFiles_spec convert (listing.filter endsSvg)
  simp [convMain, List.isEmpty_iff, h, hp.1, hp.2]

/-- C5 witness: the spec's example scenario — `logo.svg` valid,
`broken.svg` malformed — prints one line per file and the tally `1/2`. -/
theorem convMain_batch_witness :
    (convMain ["logo.svg", "broken.svg"] demoOracle).output =
      ["Found 2 SVG files to convert\n",
       "✓ Converted: logo.svg -> logo.jpg",
       "✗ Error converting broken.svg: malformed",
       "\n✓ Successfully converted 1/2 files"] :=
  (convMain_batch ["logo.svg", "broken.svg"] demoOracle (by decide)).trans (by decide)

/-- C6: whenever listing the working directory succeeds, the converter's
process exit status is 0, however many per-file conversions fail. -/
theorem convMain_exit_zero (listing : List String) (convert : ConvertOracle) :
    (convMain listing convert).exitCode = 0 := by
  by_cases h : (listing.filter endsSvg).isEmpty <;> simp [convMain, h]

/-- C9: when the listing holds no filename ending in `.svg`, the converter
prints exactly the no-files line and stops — no count, per-file or tally
line, and the conversion oracle is never consulted (the result is the same
for every oracle). -/
theorem convMain_no_svg (listing : List String) (convert : ConvertOracle)
    (h : listing.filter endsSvg = []) :
    convMain listing convert =
      { output := ["No SVG files found in current directory"], exitCode := 0 } := by
  simp [convMain, h]

/-- C9 witness: a directory with no SVG files. -/
theorem convMain_no_svg_witness :
    convMain ["readme.txt", "logo.png"] demoOracle =
      { output := ["No SVG files found in current directory"], exitCode := 0 } :=
  convMain_no_svg ["readme.txt", "logo.png"] demoOracle (by decide)

end SvgConvert

namespace ServeAnimation

/-- C2: a GET for the empty path or `/` is answered exactly like a GET for
`/mpmc_animation.html`; every other path is served as requested. -/
theorem do_GET_root_rewrite (files : String → Option String) (path : String) :
    ((path = "" ∨ path = "/") →
        do_GET files path = do_GET files "/mpmc_animation.html") ∧
    (path ≠ "" → path ≠ "/" → do_GET files path = serveFile files path) := by
  constructor
  · intro h
    show serveFile files (rewritePath path) = serveFile files (rewritePath _)
    rw [show rewritePath "/mpmc_animation.html" = "/mpmc_animation.html" from by decide]
    rcases h with h | h <;> subst h <;> rw [show rewritePath _ = "/mpmc_animation.html" from by decide]
  · intro h1 h2
    show serveFile files (rewritePath path) = serveFile files path
    simp [rewritePath, h1, h2]

/-- C2 witness: against a tree holding only the animation page, `/` yields
the same body as `/mpmc_animation.html`. -/
theorem do_GET_root_rewrite_witness :
    do_GET demoFiles "/" = do_GET demoFiles "/mpmc_animation.html" ∧
    do_GET demoFiles "/" = some "<html>animation</html>" := by
  have h := (do_GET_root_rewrite demoFiles "/").1 (Or.inr rfl)
  exact ⟨h, h.trans (by decide)⟩

/-- C3: every response, whatever its status code and buffered headers,
carries the header `Access-Control-Allow-Origin: *`. -/
theorem respond_always_cors (status : Nat) (buffered : List (String × String)) :
    ("Access-Control-Allow-Origin", "*") ∈ (respond status buffered).2 := by
  simp [respond, end_headers]

/-- C7: with the open-browser flag set, a failing browser launch is
swallowed: the run is identical to one where the launch succeeds, the
serve loop is still entered, and nothing beyond the banner is printed (the
same output as without the flag). -/
theorem browser_failure_ignored (cwd : String) (args : Args)
    (browser : Except String Unit) (h : args.openFlag = true) :
    serverMain cwd args browser = serverMain cwd args (Except.ok ()) ∧
    (serverMain cwd args browser).serving = true ∧
    (serverMain cwd args browser).printed =
      (serverMain cwd { args with openFlag := false } browser).printed := by
  cases browser <;> simp [serverMain, tryOpenBrowser, h]

/-- C7 witness: `--open` with a browser launch that raises. -/
theorem browser_failure_ignored_witness :
    (serverMain "/srv" (parseArgs none none true)
        (Except.error "no browser available")).serving = true :=
  (browser_failure_ignored "/srv" (parseArgs none none true)
    (Except.error "no browser available") rfl).2.1

/-- C8: the CLI defaults are port 8000, host `0.0.0.0`, open-browser off;
given flags are taken verbatim; with all flags omitted the server binds
`("0.0.0.0", 8000)` and never attempts to open a browser. -/
theorem cli_defaults (cwd : String) (browser : Except String Unit) :
    parseArgs none none false = { port := 8000, host := "0.0.0.0", openFlag := false } ∧
    (∀ p hst o, parseArgs (some p) (some hst) o = { port := p, host := hst, openFlag := o }) ∧
    (serverMain cwd (parseArgs none none false) browser).addr = ("0.0.0.0", 8000) ∧
    (serverMain cwd (parseArgs none none false) browser).attemptedBrowser = false :=
  ⟨rfl, fun _ _ _ => rfl, rfl, rfl⟩

/-- C10: the root rewrite fires only when the raw request target is
exactly the empty string or `/`; targets such as `/?x=1` or `//` fall
through to the ordinary file-serving logic untouched. -/
theorem rewrite_only_exact_root (files : String → Option String) :
    do_GET files "/?x=1" = serveFile files "/?x=1" ∧
    do_GET files "//" = serveFile files "//" ∧
    (∀ p, rewritePath p ≠ p → p = "" ∨ p = "/") := by
  refine ⟨?_, ?_, fun p hp => ?_⟩
  · show serveFile files (rewritePath _) = _
    rw [show rewritePath "/?x=1" = "/?x=1" from by decide]
  · show serveFile files (rewritePath _) = _
    rw [show rewritePath "//" = "//" from by decide]
  · by_contra hcon
    push_neg at hcon
    exact hp (by simp [rewritePath, hcon.1, hcon.2])

/-- C10 witness: the query-string target is served untouched, and the one
path the rewrite does change is the root. -/
theorem rewrite_only_exact_root_witness :
    do_GET demoFiles "/?x=1" = serveFile demoFiles "/?x=1" ∧
    ("" = "" ∨ "" = "/") :=
  ⟨(rewrite_only_exact_root demoFiles).1,
   (rewrite_only_exact_root demoFiles).2.2 "" (by decide)⟩

end ServeAnimation
